import Mathlib

/-!
Verification of the overseerr-mcp-server request/response mediation layer:
a shallow embedding of the API client (overseerr.py), the startup
enrichment (server.py) and the tool layer (tools.py), together with
theorems settling the behavioural claims about them.

Network calls are modelled as oracles (functions returning an
`Except String` value, where the error carries the raised message), so
each tool body becomes a pure function of its oracles.
-/

namespace OverseerrMcp

/-- Association-list lookup, modelling Python `dict.get(key)` on the
JSON objects the code manipulates. -/
def alookup {α : Type} : List (String × α) → String → Option α
  | [], _ => none
  | p :: rest, n => if p.1 = n then some p.2 else alookup rest n

/-- Removal of a key, modelling Python `del d[key]` (keys are unique in a
Python dict, so removing every binding of the key is equivalent). -/
def eraseKey {α : Type} : List (String × α) → String → List (String × α)
  | [], _ => []
  | p :: rest, n => if p.1 = n then eraseKey rest n else p :: eraseKey rest n

/-- Number of bindings of a key in an association list. -/
def keyCount {α : Type} (n : String) : List (String × α) → Nat
  | [] => 0
  | p :: rest => (if p.1 = n then 1 else 0) + keyCount n rest

/-- Number of occurrences of a string in a list. -/
def scount (n : String) : List String → Nat
  | [] => 0
  | x :: rest => (if x = n then 1 else 0) + scount n rest

/-- Removal of the first occurrence, modelling Python `list.remove(x)`
guarded by `if x in list` (identity when absent). -/
def removeFirst : List String → String → List String
  | [], _ => []
  | x :: rest, n => if x = n then rest else x :: removeFirst rest n

/-- Left-biased choice on options. -/
def oOr {α : Type} : Option α → Option α → Option α
  | some x, _ => some x
  | none, y => y

/-- Python truthiness of an optional integer JSON value:
`None` and `0` are falsy. -/
def truthyInt : Option Int → Bool
  | none => false
  | some v => decide (v ≠ 0)

/-- Python `f"{n:02d}"`: decimal rendering zero-padded to width two. -/
def pad2 (n : Int) : String :=
  let s := toString n
  if s.length < 2 then "0" ++ s else s

/-! ## API client (overseerr.py) -/

/-- Description of the HTTP request an endpoint operation performs:
verb, path, and integer query parameters. -/
structure ReqSpec where
  method : String
  path : String
  params : List (String × Int)

/-- From overseerr.py `get_status`. -/
def get_status_req : ReqSpec := ⟨"GET", "/api/v1/status", []⟩

/-- From overseerr.py `get_movie_details`. -/
def get_movie_details_req (movie_id : Int) : ReqSpec :=
  ⟨"GET", "/api/v1/movie/" ++ toString movie_id, []⟩

/-- From overseerr.py `get_tv_details`. -/
def get_tv_details_req (tv_id : Int) : ReqSpec :=
  ⟨"GET", "/api/v1/tv/" ++ toString tv_id, []⟩

/-- From overseerr.py `get_season_details`. -/
def get_season_details_req (tv_id season_id : Int) : ReqSpec :=
  ⟨"GET", "/api/v1/tv/" ++ toString tv_id ++ "/season/" ++ toString season_id, []⟩

/-- From overseerr.py `get_requests` (query parameters are assembled by the
tool layer and passed through). -/
def get_requests_req (params : List (String × Int)) : ReqSpec :=
  ⟨"GET", "/api/v1/request", params⟩

/-- Modelled from the spec: the client operation listing configured
movie-library (Radarr) backends. Its definition is missing from the
provided sources (only its callers in server.py and tools.py appear);
the spec lists it among the endpoint operations as a plain GET. -/
def get_radarr_servers : ReqSpec := ⟨"GET", "/api/v1/settings/radarr", []⟩

/-- Modelled from the spec: the client operation listing configured
TV-library (Sonarr) backends. Its definition is missing from the
provided sources (only its callers in server.py and tools.py appear);
the spec lists it among the endpoint operations as a plain GET. -/
def get_sonarr_servers : ReqSpec := ⟨"GET", "/api/v1/settings/sonarr", []⟩

/-- Modelled from the spec: the client operation listing users with
`take`/`skip` pagination. Its definition is missing from the provided
sources (only its callers in server.py and tools.py appear); the spec
describes it as a GET with `take` and `skip` query parameters. -/
def get_users (take skip : Int) : ReqSpec :=
  ⟨"GET", "/api/v1/user", [("take", take), ("skip", skip)]⟩

/-- Body of a TV request submission, from overseerr.py `request_tv`. -/
structure TvRequestBody where
  mediaType : String
  mediaId : Int
  seasons : List Int
  userId : Int
  serverId : Option Int

/-- overseerr.py `request_tv`: builds the POST /api/v1/request body.
`seasons if seasons else [-1]` maps `None` and the empty list to the
all-seasons sentinel. -/
def request_tv (default_request_user_id : Int) (tmdb_id : Int)
    (seasons : Option (List Int)) (user_id : Option Int)
    (server_id : Option Int) : TvRequestBody :=
  { mediaType := "tv"
    mediaId := tmdb_id
    seasons :=
      match seasons with
      | none => [-1]
      | some s => if s = [] then [-1] else s
    userId := user_id.getD default_request_user_id
    serverId := server_id }

/-- Classification of a non-2xx response body as seen by
`_safe_request`: either it parses as a JSON object (string fields), or
it is not valid JSON and only the raw text is available. -/
inductive ErrBody where
  | jsonObj (fields : List (String × String))
  | notJson (text : String)

/-- overseerr.py `_safe_request`, HTTPStatusError handler: the message
extracted from the error response body. A JSON object yields its
`message` field (default `<unknown error message>`); a non-JSON body
yields `e.response.text or '<no error details>'`. -/
def extractErrMessage : ErrBody → String
  | .jsonObj fields => (alookup fields "message").getD "<unknown error message>"
  | .notJson text => if text = "" then "<no error details>" else text

/-- overseerr.py `_safe_request`: the full message of the exception
raised on a non-2xx response. -/
def safeRequestErrorMsg (status : Nat) (method endpoint : String)
    (body : ErrBody) : String :=
  "Overseerr API Error " ++ toString status ++ " on " ++ method ++ " "
    ++ endpoint ++ ": " ++ extractErrMessage body

/-! ## Startup enrichment (server.py fetch_initial_data) -/

/-- A raw library-server record as returned by the backend: `id` and
`name` are read with `.get` and may be absent. -/
structure ServerEntry where
  id : Option Int
  name : Option String

/-- The library tables built by enrichment: ordered name list and
name-to-id map. -/
structure LibState where
  names : List String
  lmap : List (String × Int)

/-- server.py, fetch_initial_data library loop body: an entry is used
only when `id` is present and `name` is truthy (present and non-empty);
the first occurrence of a name wins and later duplicates are skipped. -/
def addLibrary (st : LibState) (s : ServerEntry) : LibState :=
  match s.id, s.name with
  | some sid, some nm =>
    if nm = "" then st
    else if (alookup st.lmap nm).isSome then st
    else { names := st.names ++ [nm], lmap := st.lmap ++ [(nm, sid)] }
  | some _, none => st
  | none, _ => st

/-- server.py: the library tables built from one backend listing. -/
def buildLibraries (servers : List ServerEntry) : LibState :=
  servers.foldl addLibrary ⟨[], []⟩

/-- A raw user record: `id` and `displayName` read with `.get`. -/
structure UserEntry where
  id : Option Int
  displayName : Option String

/-- The user tables built by enrichment: usable display names, the
displayName-to-id map, and the duplicate blacklist. -/
structure UserState where
  names : List String
  umap : List (String × Int)
  dups : List String

/-- server.py, fetch_initial_data user loop body. A valid entry whose
name is already in the map sends the name to the duplicate list and
removes it from both the usable list and the map; a name not in the map
and not blacklisted is added; a blacklisted name is ignored. -/
def addUser (st : UserState) (u : UserEntry) : UserState :=
  match u.id, u.displayName with
  | some uid, some dn =>
    if dn = "" then st
    else if (alookup st.umap dn).isSome then
      { names := removeFirst st.names dn
        umap := eraseKey st.umap dn
        dups := if dn ∈ st.dups then st.dups else st.dups ++ [dn] }
    else if dn ∈ st.dups then st
    else
      { names := st.names ++ [dn]
        umap := st.umap ++ [(dn, uid)]
        dups := st.dups }
  | some _, none => st
  | none, _ => st

/-- server.py: the user tables built from the collected user entries. -/
def buildUsers (users : List UserEntry) : UserState :=
  users.foldl addUser ⟨[], [], []⟩

/-- The ids of the valid entries (id present, non-empty name) carrying a
given library name, in order of appearance. -/
def validIds (n : String) : List ServerEntry → List Int
  | [] => []
  | s :: rest =>
    match s.id, s.name with
    | some i, some m =>
      if m = "" then validIds n rest
      else if m = n then i :: validIds n rest
      else validIds n rest
    | some _, none => validIds n rest
    | none, _ => validIds n rest

/-- The id of the first valid entry carrying a given library name. -/
def firstValidId (n : String) : List ServerEntry → Option Int
  | [] => none
  | s :: rest =>
    match s.id, s.name with
    | some i, some m =>
      if m = "" then firstValidId n rest
      else if m = n then some i
      else firstValidId n rest
    | some _, none => firstValidId n rest
    | none, _ => firstValidId n rest

/-- The ids of the valid user entries (id present, non-empty
displayName) carrying a given display name, in order of appearance. -/
def validUserIds (n : String) : List UserEntry → List Int
  | [] => []
  | u :: rest =>
    match u.id, u.displayName with
    | some i, some d =>
      if d = "" then validUserIds n rest
      else if d = n then i :: validUserIds n rest
      else validUserIds n rest
    | some _, none => validUserIds n rest
    | none, _ => validUserIds n rest

/-- Abstract fate of one display name in the user tables: never seen,
kept with an id, or blacklisted by a duplicate. -/
inductive NameFate where
  | fresh
  | kept (i : Int)
  | burned

/-- What the state says about one display name under each fate. -/
def fateOk (st : UserState) (n : String) : NameFate → Prop
  | .fresh => scount n st.names = 0 ∧ alookup st.umap n = none ∧ n ∉ st.dups
  | .kept i => scount n st.names = 1 ∧ alookup st.umap n = some i ∧ n ∉ st.dups
  | .burned => scount n st.names = 0 ∧ alookup st.umap n = none ∧ n ∈ st.dups

/-- How one more sequence of same-name valid entries advances a fate. -/
def advance : NameFate → List Int → NameFate
  | v, [] => v
  | .fresh, i :: rest => advance (.kept i) rest
  | .kept _, _ :: rest => advance .burned rest
  | .burned, _ :: rest => advance .burned rest

/-! ## Tool layer (tools.py) -/

/-- tools.py MEDIA_STATUS_MAPPING. -/
def MEDIA_STATUS_MAPPING (code : Int) : Option String :=
  if code = 1 then some "UNKNOWN"
  else if code = 2 then some "PENDING"
  else if code = 3 then some "PROCESSING"
  else if code = 4 then some "PARTIALLY_AVAILABLE"
  else if code = 5 then some "AVAILABLE"
  else none

/-- tools.py `MEDIA_STATUS_MAPPING.get(code, "UNKNOWN")`. -/
def mediaAvailability (code : Int) : String :=
  (MEDIA_STATUS_MAPPING code).getD "UNKNOWN"

/-- A request row of the upstream GET /api/v1/request listing: the
`media` sub-object (integer-valued keys: tvdbId, tmdbId, status; an
absent or empty object is the empty list), the creation timestamp, and
the requested season numbers (each read with `.get("seasonNumber")`). -/
structure ReqRow where
  media : List (String × Int)
  createdAt : Option String
  seasons : List (Option Int)

/-- The upstream request listing payload (only `results` is used by the
movie/TV listing tools). -/
structure RequestsResponse where
  results : List ReqRow

/-- Movie details payload (only `title` is used). -/
structure MovieDetails where
  title : Option String

/-- Show details payload: `name` and the season numbers of the entries
of `seasons` (each read with `.get("seasonNumber")`). -/
structure TvDetails where
  name : Option String
  seasons : List (Option Int)

/-- One episode of a season details payload. -/
structure Episode where
  episodeNumber : Option Int
  name : Option String

/-- Season details payload (only `episodes` is used). -/
structure SeasonDetails where
  episodes : List Episode

/-- An element of the `tv_episodes` field of a formatted TV row: either
a formatted episode entry, or the error placeholder emitted when the
season-details fetch fails. -/
inductive EpisodeEntry where
  | entry (number : String) (name : String)
  | fetchError (msg : String)
deriving DecidableEq

/-- A formatted row of the TV request listing. -/
structure TvRow where
  tv_title : String
  tv_title_availability : String
  tv_season : String
  tv_season_availability : String
  tv_episodes : List EpisodeEntry
  request_date : String
deriving DecidableEq

/-- A formatted row of the movie request listing. -/
structure MovieRow where
  title : String
  media_availability : String
  request_date : String
deriving DecidableEq

/-- tools.py: `if start_date and start_date > created_at: continue`,
with Python string comparison. -/
def dateSkip (start_date : Option String) (created_at : String) : Bool :=
  match start_date with
  | none => false
  | some sdv => if sdv = "" then false else decide (created_at < sdv)

/-- tools.py overseerr_movie_requests, title fan-out: fetch the movie
details when the tmdbId is truthy, degrading to placeholder titles. -/
def movieTitle (getMovie : Int → Except String MovieDetails)
    (media : List (String × Int)) : String :=
  match alookup media "tmdbId" with
  | some mid =>
    if mid = 0 then "Unknown Movie (No TMDB ID)"
    else
      match getMovie mid with
      | .ok d => d.title.getD "Unknown Movie"
      | .error _ => "Unknown Movie (ID: " ++ toString mid ++ ")"
  | none => "Unknown Movie (No TMDB ID)"

/-- tools.py overseerr_movie_requests, per-row processing: a row is kept
when its media object is truthy and its tvdbId is falsy and the
start-date filter passes. -/
def processMovieRow (getMovie : Int → Except String MovieDetails)
    (start_date : Option String) (row : ReqRow) : Option MovieRow :=
  if row.media ≠ [] ∧ truthyInt (alookup row.media "tvdbId") = false then
    if dateSkip start_date (row.createdAt.getD "") then none
    else
      some { title := movieTitle getMovie row.media
             media_availability := mediaAvailability ((alookup row.media "status").getD 1)
             request_date := row.createdAt.getD "" }
  else none

/-- The formatted movie rows produced from a results list. -/
def movieRows (getMovie : Int → Except String MovieDetails)
    (start_date : Option String) (results : List ReqRow) : List MovieRow :=
  results.filterMap (processMovieRow getMovie start_date)

/-- tools.py overseerr_tv_requests, episode fan-out for one season: on a
failed season-details fetch the episode list degrades to a single error
placeholder. -/
def seasonEpisodes (getSeason : Int → Int → Except String SeasonDetails)
    (tvId sn : Int) (seasonStr : String) : List EpisodeEntry :=
  match getSeason tvId sn with
  | .error _ => [EpisodeEntry.fetchError ("Could not fetch details for " ++ seasonStr)]
  | .ok sd =>
    sd.episodes.map (fun ep =>
      EpisodeEntry.entry (pad2 (ep.episodeNumber.getD 0))
        (ep.name.getD ("Episode " ++ toString (ep.episodeNumber.getD 0))))

/-- tools.py overseerr_tv_requests, one season of the fan-out: season 0
and absent season numbers are skipped, a non-empty requested-season set
filters, and the row carries the show title and the availability derived
from the media status. -/
def seasonRow (getSeason : Int → Int → Except String SeasonDetails)
    (tvId : Int) (title avail created : String)
    (requested : List (Option Int)) : Option Int → Option TvRow
  | none => none
  | some sn =>
    if sn = 0 then none
    else if requested ≠ [] ∧ some sn ∉ requested then none
    else
      some { tv_title := title
             tv_title_availability := avail
             tv_season := "S" ++ pad2 sn
             tv_season_availability := avail
             tv_episodes := seasonEpisodes getSeason tvId sn ("S" ++ pad2 sn)
             request_date := created }

/-- tools.py overseerr_tv_requests, per-request processing: a row is
processed when its media object is truthy and its tvdbId is truthy and
the start-date filter passes; a falsy tmdbId or a failed show-details
fetch leaves the season list empty, so no season row is emitted. -/
def processTvRequest (getTv : Int → Except String TvDetails)
    (getSeason : Int → Int → Except String SeasonDetails)
    (start_date : Option String) (row : ReqRow) : List TvRow :=
  if row.media ≠ [] ∧ truthyInt (alookup row.media "tvdbId") = true then
    if dateSkip start_date (row.createdAt.getD "") then []
    else
      match alookup row.media "tmdbId" with
      | none => []
      | some tvId =>
        if tvId = 0 then []
        else
          match getTv tvId with
          | .error _ => []
          | .ok d =>
            d.seasons.filterMap
              (seasonRow getSeason tvId (d.name.getD "Unknown TV Show")
                (mediaAvailability ((alookup row.media "status").getD 1))
                (row.createdAt.getD "") row.seasons)
  else []

/-- The formatted TV rows produced from a results list. -/
def tvRows (getTv : Int → Except String TvDetails)
    (getSeason : Int → Int → Except String SeasonDetails)
    (start_date : Option String) (results : List ReqRow) : List TvRow :=
  (results.map (processTvRequest getTv getSeason start_date)).flatten

/-- tools.py: the fixed status-filter allow-list. -/
def valid_statuses : List String :=
  ["all", "approved", "available", "pending", "processing", "unavailable", "failed"]

/-- tools.py overseerr_movie_requests and overseerr_tv_requests: the
`filter` query parameter derived from the caller-supplied status
(`if status and status not in valid_statuses: status = None`, then
`if status and status != "all"`). -/
def toolStatusFilter (status : Option String) : Option String :=
  let status1 : Option String :=
    match status with
    | some s => if s ≠ "" ∧ s ∉ valid_statuses then none else some s
    | none => none
  match status1 with
  | some s => if s ≠ "" ∧ s ≠ "all" then some s else none
  | none => none

/-- tools.py: `take = max(0, take if take is not None else 7)`. -/
def normTake (take : Option Int) : Int := max 0 (take.getD 7)

/-- tools.py: `skip = max(0, skip if skip is not None else 0)`. -/
def normSkip (skip : Option Int) : Int := max 0 (skip.getD 0)

/-- The query parameters the listing tools pass to `get_requests`. -/
structure RequestParams where
  take : Int
  skip : Int
  filter : Option String
deriving DecidableEq

/-- The value a tool returns: either its payload, or the tagged
`error`-field value built by an except handler. -/
inductive ToolOutcome (ρ : Type) where
  | ok (rows : ρ)
  | errorField (msg : String)
deriving DecidableEq

/-- tools.py overseerr_movie_requests: normalizes paging and status,
calls get_requests, and converts a raised error into the tagged error
value; per-row movie-details failures are absorbed by `movieTitle`. -/
def overseerr_movie_requests_tool
    (getRequests : RequestParams → Except String RequestsResponse)
    (getMovie : Int → Except String MovieDetails)
    (status start_date : Option String) (take skip : Option Int) :
    ToolOutcome (List MovieRow) :=
  match getRequests ⟨normTake take, normSkip skip, toolStatusFilter status⟩ with
  | .error e => .errorField ("Error fetching movie requests: " ++ e)
  | .ok resp => .ok (movieRows getMovie start_date resp.results)

/-- tools.py overseerr_tv_requests: same shape as the movie listing,
with the per-request season/episode fan-out. -/
def overseerr_tv_requests_tool
    (getRequests : RequestParams → Except String RequestsResponse)
    (getTv : Int → Except String TvDetails)
    (getSeason : Int → Int → Except String SeasonDetails)
    (status start_date : Option String) (take skip : Option Int) :
    ToolOutcome (List TvRow) :=
  match getRequests ⟨normTake take, normSkip skip, toolStatusFilter status⟩ with
  | .error e => .errorField ("Error fetching TV requests: " ++ e)
  | .ok resp => .ok (tvRows getTv getSeason start_date resp.results)

/-- tools.py overseerr_status, response formatting: presence of a
`version` key selects the available wording. -/
def formatStatus (data : List (String × String)) : String :=
  let lines := "\n- " ++ String.intercalate "\n- " (data.map (fun p => p.1 ++ ": " ++ p.2))
  if (alookup data "version").isSome then
    "\n---\nOverseerr is available and these are the status data:\n" ++ lines
  else
    "\n---\nOverseerr is not available and below is the request error: \n" ++ lines

/-- tools.py overseerr_status: the tool body has no try/except, so an
error raised by `get_status` leaves the tool as a raised exception
(modelled by the `Except.error` branch passing through). -/
def overseerr_status (getStatus : Except String (List (String × String))) :
    Except String String :=
  match getStatus with
  | .error e => .error e
  | .ok data => .ok (formatStatus data)

/-! ## Helper lemmas -/

theorem oOr_none_right {α : Type} (x : Option α) : oOr x none = x := by
  cases x <;> rfl

theorem alookup_append {α : Type} (m : List (String × α)) (k n : String) (v : α) :
    alookup (m ++ [(k, v)]) n = oOr (alookup m n) (if k = n then some v else none) := by
  induction m with
  | nil => simp [alookup, oOr]
  | cons p rest ih =>
    by_cases h : p.1 = n
    · simp [alookup, h, oOr]
    · simp [alookup, h, ih]

theorem alookup_eraseKey {α : Type} (m : List (String × α)) (k n : String) :
    alookup (eraseKey m k) n = if k = n then none else alookup m n := by
  induction m with
  | nil => simp [alookup, eraseKey]
  | cons p rest ih =>
    simp only [eraseKey]
    by_cases hp : p.1 = k
    · rw [if_pos hp, ih]
      by_cases hkn : k = n
      · simp [hkn]
      · have hpn : ¬ p.1 = n := fun h => hkn (by rw [← hp, h])
        simp [alookup, hkn, hpn]
    · rw [if_neg hp]
      simp only [alookup]
      by_cases hpn : p.1 = n
      · have hkn : ¬ k = n := fun h => hp (hpn.trans h.symm)
        rw [if_pos hpn, if_neg hkn, if_pos hpn]
      · rw [if_neg hpn, ih]
        by_cases hkn : k = n
        · simp [hkn]
        · simp [hkn, alookup, hpn]

theorem keyCount_append {α : Type} (m : List (String × α)) (k n : String) (v : α) :
    keyCount n (m ++ [(k, v)]) = keyCount n m + (if k = n then 1 else 0) := by
  induction m with
  | nil => simp [keyCount]
  | cons p rest ih => simp [keyCount, ih, Nat.add_assoc]

theorem scount_append (l : List String) (m n : String) :
    scount n (l ++ [m]) = scount n l + (if m = n then 1 else 0) := by
  induction l with
  | nil => simp [scount]
  | cons x rest ih => simp [scount, ih, Nat.add_assoc]

theorem scount_removeFirst_self (l : List String) (n : String) :
    scount n (removeFirst l n) = scount n l - 1 := by
  induction l with
  | nil => simp [scount, removeFirst]
  | cons x rest ih =>
    by_cases h : x = n
    · simp [removeFirst, scount, h]
    · simp [removeFirst, scount, h, ih]

theorem scount_removeFirst_ne (l : List String) (m n : String) (h : m ≠ n) :
    scount n (removeFirst l m) = scount n l := by
  induction l with
  | nil => rfl
  | cons x rest ih =>
    by_cases hx : x = m
    · have : x ≠ n := fun hxn => h (hx.symm.trans hxn)
      simp [removeFirst, scount, hx, this, h]
    · simp [removeFirst, scount, hx, ih]

theorem scount_eq_zero_iff (l : List String) (n : String) :
    scount n l = 0 ↔ n ∉ l := by
  induction l with
  | nil => simp [scount]
  | cons x rest ih =>
    simp only [scount, List.mem_cons]
    by_cases h : x = n
    · rw [if_pos h]
      constructor
      · intro hc; omega
      · intro hm; exact absurd (Or.inl h.symm) hm
    · rw [if_neg h]
      have hnx : ¬ n = x := fun hh => h hh.symm
      simp [ih, hnx]

theorem firstValidId_eq_head (n : String) (servers : List ServerEntry) :
    firstValidId n servers = (validIds n servers).head? := by
  induction servers with
  | nil => rfl
  | cons s rest ih =>
    obtain ⟨sid, snm⟩ := s
    cases sid with
    | none => simpa [firstValidId, validIds] using ih
    | some i =>
      cases snm with
      | none => simpa [firstValidId, validIds] using ih
      | some m =>
        by_cases h0 : m = ""
        · simpa [firstValidId, validIds, h0] using ih
        · by_cases hn : m = n
          · subst hn
            simp [firstValidId, validIds, h0]
          · simpa [firstValidId, validIds, h0, hn] using ih

theorem buildLib_foldl (n : String) (servers : List ServerEntry) :
    ∀ st : LibState,
      alookup (servers.foldl addLibrary st).lmap n =
        oOr (alookup st.lmap n) (firstValidId n servers) ∧
      keyCount n (servers.foldl addLibrary st).lmap =
        keyCount n st.lmap +
          (if alookup st.lmap n = none ∧ (firstValidId n servers).isSome then 1 else 0) := by
  induction servers with
  | nil =>
    intro st
    simp [firstValidId, oOr_none_right]
  | cons s rest ih =>
    intro st
    rw [List.foldl_cons]
    obtain ⟨sid, snm⟩ := s
    cases sid with
    | none => simpa [addLibrary, firstValidId] using ih st
    | some i =>
      cases snm with
      | none => simpa [addLibrary, firstValidId] using ih st
      | some m =>
        by_cases h0 : m = ""
        · simpa [addLibrary, firstValidId, h0] using ih st
        · by_cases hlk : (alookup st.lmap m).isSome = true
          · obtain ⟨x, hx⟩ := Option.isSome_iff_exists.mp hlk
            by_cases hn : m = n
            · subst hn
              have h1 := ih st
              constructor
              · simp [addLibrary, h0, hlk, firstValidId, h1.1, hx, oOr]
              · simp [addLibrary, h0, hlk, firstValidId, h1.2, hx]
            · simpa [addLibrary, h0, hlk, firstValidId, hn] using ih st
          · have hnone : alookup st.lmap m = none := by
              cases hl : alookup st.lmap m with
              | none => rfl
              | some x => simp [hl] at hlk
            have hstep : addLibrary st ⟨some i, some m⟩ =
                ⟨st.names ++ [m], st.lmap ++ [(m, i)]⟩ := by
              simp [addLibrary, h0, hnone]
            rw [hstep]
            have h1 := ih ⟨st.names ++ [m], st.lmap ++ [(m, i)]⟩
            by_cases hn : m = n
            · subst hn
              have e1 : alookup (st.lmap ++ [(m, i)]) m = some i := by
                rw [alookup_append, hnone]; simp [oOr]
              constructor
              · rw [h1.1]; simp [e1, firstValidId, h0, hnone, oOr]
              · rw [h1.2]
                simp [e1, keyCount_append, firstValidId, h0, hnone]
            · have e1 : alookup (st.lmap ++ [(m, i)]) n = alookup st.lmap n := by
                rw [alookup_append]; simp [hn, oOr_none_right]
              have e2 : keyCount n (st.lmap ++ [(m, i)]) = keyCount n st.lmap := by
                rw [keyCount_append]; simp [hn]
              constructor
              · rw [h1.1]; simp [e1, firstValidId, h0, hn]
              · rw [h1.2]; simp [e1, e2, firstValidId, h0, hn]

theorem advance_burned (ids : List Int) : advance .burned ids = .burned := by
  induction ids with
  | nil => rfl
  | cons i rest ih => simpa [advance] using ih

theorem fateOk_congr (st st' : UserState) (n : String) (v : NameFate)
    (h1 : scount n st'.names = scount n st.names)
    (h2 : alookup st'.umap n = alookup st.umap n)
    (h3 : n ∈ st'.dups ↔ n ∈ st.dups) (hv : fateOk st n v) : fateOk st' n v := by
  cases v with
  | fresh => exact ⟨by rw [h1]; exact hv.1, by rw [h2]; exact hv.2.1,
      fun hm => hv.2.2 (h3.mp hm)⟩
  | kept i => exact ⟨by rw [h1]; exact hv.1, by rw [h2]; exact hv.2.1,
      fun hm => hv.2.2 (h3.mp hm)⟩
  | burned => exact ⟨by rw [h1]; exact hv.1, by rw [h2]; exact hv.2.1,
      h3.mpr hv.2.2⟩

theorem addUser_other_eqs (st : UserState) (n : String) (i : Int) (d : String)
    (hdn : d ≠ n) (h0 : d ≠ "") :
    scount n (addUser st ⟨some i, some d⟩).names = scount n st.names ∧
    alookup (addUser st ⟨some i, some d⟩).umap n = alookup st.umap n ∧
    (n ∈ (addUser st ⟨some i, some d⟩).dups ↔ n ∈ st.dups) := by
  have hnd : n ≠ d := fun h => hdn h.symm
  by_cases hlk : (alookup st.umap d).isSome = true
  · refine ⟨?_, ?_, ?_⟩
    · simp [addUser, h0, hlk, scount_removeFirst_ne _ _ _ hdn]
    · simp [addUser, h0, hlk, alookup_eraseKey, hdn]
    · by_cases hd : d ∈ st.dups
      · simp [addUser, h0, hlk, hd]
      · simp [addUser, h0, hlk, hd, List.mem_append, hnd]
  · by_cases hbl : d ∈ st.dups
    · simp [addUser, h0, hlk, hbl]
    · refine ⟨?_, ?_, ?_⟩
      · simp [addUser, h0, hlk, hbl, scount_append, hdn]
      · rw [show (addUser st ⟨some i, some d⟩).umap = st.umap ++ [(d, i)] by
          simp [addUser, h0, hlk, hbl]]
        rw [alookup_append]; simp [hdn, oOr_none_right]
      · simp [addUser, h0, hlk, hbl, List.mem_append, hnd]

theorem buildUsers_foldl (n : String) (users : List UserEntry) :
    ∀ (st : UserState) (v : NameFate), fateOk st n v →
      fateOk (users.foldl addUser st) n (advance v (validUserIds n users)) := by
  induction users with
  | nil =>
    intro st v hv
    simpa [advance, validUserIds] using hv
  | cons u rest ih =>
    intro st v hv
    rw [List.foldl_cons]
    obtain ⟨uid, dn⟩ := u
    cases uid with
    | none =>
      have e1 : addUser st ⟨none, dn⟩ = st := by cases dn <;> rfl
      have e2 : validUserIds n (⟨none, dn⟩ :: rest) = validUserIds n rest := by
        cases dn <;> rfl
      rw [e1, e2]; exact ih st v hv
    | some i =>
      cases dn with
      | none =>
        have e1 : addUser st ⟨some i, none⟩ = st := rfl
        have e2 : validUserIds n (⟨some i, none⟩ :: rest) = validUserIds n rest := rfl
        rw [e1, e2]; exact ih st v hv
      | some d =>
        by_cases h0 : d = ""
        · have e1 : addUser st ⟨some i, some d⟩ = st := by simp [addUser, h0]
          have e2 : validUserIds n (⟨some i, some d⟩ :: rest) = validUserIds n rest := by
            simp [validUserIds, h0]
          rw [e1, e2]; exact ih st v hv
        · by_cases hdn : d = n
          · subst hdn
            have e2 : validUserIds d (⟨some i, some d⟩ :: rest) =
                i :: validUserIds d rest := by
              simp [validUserIds, h0]
            rw [e2]
            cases v with
            | fresh =>
              obtain ⟨hc, hl, hd⟩ := hv
              have e1 : addUser st ⟨some i, some d⟩ =
                  ⟨st.names ++ [d], st.umap ++ [(d, i)], st.dups⟩ := by
                simp [addUser, h0, hl, hd]
              rw [e1]
              have hv' : fateOk ⟨st.names ++ [d], st.umap ++ [(d, i)], st.dups⟩ d
                  (.kept i) := by
                refine ⟨?_, ?_, hd⟩
                · simp [scount_append, hc]
                · rw [alookup_append, hl]; simp [oOr]
              simpa [advance] using ih _ (.kept i) hv'
            | kept x =>
              obtain ⟨hc, hl, hd⟩ := hv
              have hlk : (alookup st.umap d).isSome = true := by simp [hl]
              have e1 : addUser st ⟨some i, some d⟩ =
                  ⟨removeFirst st.names d, eraseKey st.umap d, st.dups ++ [d]⟩ := by
                simp [addUser, h0, hlk, hd]
              rw [e1]
              have hv' : fateOk ⟨removeFirst st.names d, eraseKey st.umap d,
                  st.dups ++ [d]⟩ d .burned := by
                refine ⟨?_, ?_, ?_⟩
                · simp [scount_removeFirst_self, hc]
                · simp [alookup_eraseKey]
                · simp [List.mem_append]
              simpa [advance] using ih _ .burned hv'
            | burned =>
              obtain ⟨hc, hl, hd⟩ := hv
              have e1 : addUser st ⟨some i, some d⟩ = st := by
                simp [addUser, h0, hl, hd]
              rw [e1]
              simpa [advance, advance_burned] using ih st .burned ⟨hc, hl, hd⟩
          · have e2 : validUserIds n (⟨some i, some d⟩ :: rest) = validUserIds n rest := by
              simp [validUserIds, h0, hdn]
            rw [e2]
            have trans := addUser_other_eqs st n i d hdn h0
            exact ih _ v (fateOk_congr _ _ _ _ trans.1 trans.2.1 trans.2.2 hv)

/-! ## Claim theorems -/

/-- Claim C1: the API client exposes, as callable operations, the
endpoint operations the spec lists; in particular the Radarr backend
listing, the Sonarr backend listing, and the user listing with
take/skip pagination all exist and describe plain GET requests, so they
reach the network layer rather than failing before any call. -/
theorem client_listing_operations :
    get_radarr_servers.method = "GET" ∧
    get_sonarr_servers.method = "GET" ∧
    (∀ t s : Int, (get_users t s).method = "GET" ∧
      (get_users t s).params = [("take", t), ("skip", s)]) ∧
    get_status_req.method = "GET" ∧
    (∀ i : Int, (get_movie_details_req i).method = "GET") ∧
    (∀ i : Int, (get_tv_details_req i).method = "GET") ∧
    (∀ i j : Int, (get_season_details_req i j).method = "GET") ∧
    (∀ ps, (get_requests_req ps).method = "GET") :=
  ⟨rfl, rfl, fun _ _ => ⟨rfl, rfl⟩, rfl, fun _ => rfl, fun _ => rfl,
    fun _ _ => rfl, fun _ => rfl⟩

/-- Claim C2 (code bug): the status tool body has no try/except, so an
error raised by the client get_status call (here a network failure)
propagates out of the tool instead of being converted into a tagged
error value. -/
theorem status_tool_propagates_error :
    overseerr_status (Except.error
        "Network request failed for GET /api/v1/status: connection refused") =
      Except.error
        "Network request failed for GET /api/v1/status: connection refused" ∧
    (∀ e : String, overseerr_status (Except.error e) = Except.error e) :=
  ⟨rfl, fun _ => rfl⟩

/-- Claim C3 counterexample: a user list with two entries displaying
"bob" (the first lacking an id) and one unique entry with an empty
displayName: the duplicated name "bob" survives in the final map and
name list, and the unique empty name is not kept, so the claim as
stated fails on entries the enrichment loop skips as invalid. -/
theorem user_dedup_counterexample :
    (([⟨none, some "bob"⟩, ⟨some 5, some "bob"⟩, ⟨some 7, some ""⟩] :
        List UserEntry).countP (fun u => u.displayName == some "bob") = 2) ∧
    alookup (buildUsers [⟨none, some "bob"⟩, ⟨some 5, some "bob"⟩,
      ⟨some 7, some ""⟩]).umap "bob" = some 5 ∧
    "bob" ∈ (buildUsers [⟨none, some "bob"⟩, ⟨some 5, some "bob"⟩,
      ⟨some 7, some ""⟩]).names ∧
    (([⟨none, some "bob"⟩, ⟨some 5, some "bob"⟩, ⟨some 7, some ""⟩] :
        List UserEntry).countP (fun u => u.displayName == some "") = 1) ∧
    "" ∉ (buildUsers [⟨none, some "bob"⟩, ⟨some 5, some "bob"⟩,
      ⟨some 7, some ""⟩]).names := by
  decide

/-- Claim C3 (amended): restricted to valid user entries (id present and
non-empty displayName): a displayName carried by two or more valid
entries appears neither in the final usable display-name list nor in the
displayName-to-id map, while a displayName carried by exactly one valid
entry is kept, mapped to that first-seen id. -/
theorem user_dedup_amended (users : List UserEntry) (n : String) :
    (∀ i j rest, validUserIds n users = i :: j :: rest →
      n ∉ (buildUsers users).names ∧ alookup (buildUsers users).umap n = none) ∧
    (∀ i, validUserIds n users = [i] →
      n ∈ (buildUsers users).names ∧ alookup (buildUsers users).umap n = some i) := by
  have hstart : fateOk ⟨[], [], []⟩ n .fresh := ⟨rfl, rfl, by simp⟩
  have hfold := buildUsers_foldl n users ⟨[], [], []⟩ .fresh hstart
  simp only [buildUsers]
  constructor
  · intro i j rest h
    rw [h] at hfold
    have hadv : advance .fresh (i :: j :: rest) = .burned := by
      simp [advance, advance_burned]
    rw [hadv] at hfold
    obtain ⟨hc, hl, -⟩ := hfold
    exact ⟨(scount_eq_zero_iff _ _).mp hc, hl⟩
  · intro i h
    rw [h] at hfold
    have hadv : advance .fresh [i] = .kept i := rfl
    rw [hadv] at hfold
    obtain ⟨hc, hl, -⟩ := hfold
    refine ⟨?_, hl⟩
    by_contra hnm
    rw [← scount_eq_zero_iff] at hnm
    omega

theorem user_dedup_amended_witness :
    validUserIds "x" [⟨some 1, some "x"⟩, ⟨some 2, some "x"⟩,
      ⟨some 3, some "y"⟩] = [1, 2] ∧
    ("x" ∉ (buildUsers [⟨some 1, some "x"⟩, ⟨some 2, some "x"⟩,
        ⟨some 3, some "y"⟩]).names ∧
      alookup (buildUsers [⟨some 1, some "x"⟩, ⟨some 2, some "x"⟩,
        ⟨some 3, some "y"⟩]).umap "x" = none) ∧
    validUserIds "y" [⟨some 1, some "x"⟩, ⟨some 2, some "x"⟩,
      ⟨some 3, some "y"⟩] = [3] ∧
    ("y" ∈ (buildUsers [⟨some 1, some "x"⟩, ⟨some 2, some "x"⟩,
        ⟨some 3, some "y"⟩]).names ∧
      alookup (buildUsers [⟨some 1, some "x"⟩, ⟨some 2, some "x"⟩,
        ⟨some 3, some "y"⟩]).umap "y" = some 3) :=
  ⟨by decide,
   (user_dedup_amended _ "x").1 1 2 [] (by decide),
   by decide,
   (user_dedup_amended _ "y").2 3 (by decide)⟩

/-- Claim C4 counterexample: a library list with two entries named "a"
both lacking an id, and two valid-id entries with an empty name: the
lookup table ends with no entry at all for either duplicated name rather
than exactly one, so the claim as stated fails on entries the enrichment
loop skips as invalid. -/
theorem library_dup_counterexample :
    (([⟨none, some "a"⟩, ⟨none, some "a"⟩, ⟨some 1, some ""⟩,
        ⟨some 2, some ""⟩] : List ServerEntry).countP
      (fun s => s.name == some "a") = 2) ∧
    keyCount "a" (buildLibraries [⟨none, some "a"⟩, ⟨none, some "a"⟩,
      ⟨some 1, some ""⟩, ⟨some 2, some ""⟩]).lmap = 0 ∧
    (([⟨none, some "a"⟩, ⟨none, some "a"⟩, ⟨some 1, some ""⟩,
        ⟨some 2, some ""⟩] : List ServerEntry).countP
      (fun s => s.name == some "") = 2) ∧
    keyCount "" (buildLibraries [⟨none, some "a"⟩, ⟨none, some "a"⟩,
      ⟨some 1, some ""⟩, ⟨some 2, some ""⟩]).lmap = 0 := by
  decide

/-- Claim C4 (amended): restricted to valid library entries (id present
and non-empty name): when two or more valid entries of one kind share a
name, every entry after the first is dropped and the lookup table holds
exactly one binding for that name, mapping it to the id of the first
valid occurrence. -/
theorem library_dedup_amended (servers : List ServerEntry) (n : String)
    (i j : Int) (rest : List Int)
    (h : validIds n servers = i :: j :: rest) :
    alookup (buildLibraries servers).lmap n = some i ∧
    keyCount n (buildLibraries servers).lmap = 1 := by
  have hfv : firstValidId n servers = some i := by
    rw [firstValidId_eq_head, h]; rfl
  have hfold := buildLib_foldl n servers ⟨[], []⟩
  simp only [buildLibraries]
  constructor
  · rw [hfold.1, hfv]; rfl
  · rw [hfold.2, hfv]
    simp [alookup, keyCount]

theorem library_dedup_amended_witness :
    validIds "4K Movies" [⟨some 1, some "4K Movies"⟩,
      ⟨some 2, some "4K Movies"⟩] = [1, 2] ∧
    alookup (buildLibraries [⟨some 1, some "4K Movies"⟩,
      ⟨some 2, some "4K Movies"⟩]).lmap "4K Movies" = some 1 ∧
    keyCount "4K Movies" (buildLibraries [⟨some 1, some "4K Movies"⟩,
      ⟨some 2, some "4K Movies"⟩]).lmap = 1 :=
  ⟨by decide,
   (library_dedup_amended _ "4K Movies" 1 2 [] (by decide)).1,
   (library_dedup_amended _ "4K Movies" 1 2 [] (by decide)).2⟩

/-- Claim C5: a TV request submission whose season list is omitted
(None) or empty encodes the all-seasons sentinel [-1] in the request
body, and a non-empty season list is sent exactly as given. -/
theorem tv_request_seasons_sentinel (d t : Int) (u sv : Option Int) :
    (request_tv d t none u sv).seasons = [-1] ∧
    (request_tv d t (some []) u sv).seasons = [-1] ∧
    (∀ s : List Int, s ≠ [] → (request_tv d t (some s) u sv).seasons = s) := by
  refine ⟨rfl, rfl, fun s hs => ?_⟩
  simp [request_tv, hs]

theorem tv_request_seasons_sentinel_witness :
    (request_tv 1 603 (some [2, 3]) none none).seasons = [2, 3] :=
  (tv_request_seasons_sentinel 1 603 none none).2.2 [2, 3] (by decide)

/-- Claim C6: in the TV request listing, when show details were fetched
successfully and the season-details fetch of a processed non-zero season
fails, that season row is still emitted: its episode list is the single
error placeholder, and the show title and availability fields it carries
are unchanged. -/
theorem tv_season_failure_placeholder
    (gtv : Int → Except String TvDetails)
    (gs : Int → Int → Except String SeasonDetails)
    (sd : Option String) (row : ReqRow) (tvId : Int) (d : TvDetails)
    (sn : Int) (e : String)
    (hmedia : row.media ≠ [])
    (htvdb : truthyInt (alookup row.media "tvdbId") = true)
    (hdate : dateSkip sd (row.createdAt.getD "") = false)
    (htmdb : alookup row.media "tmdbId" = some tvId)
    (h0 : tvId ≠ 0)
    (hshow : gtv tvId = Except.ok d)
    (hsn : some sn ∈ d.seasons)
    (hsn0 : sn ≠ 0)
    (hreq : row.seasons = [] ∨ some sn ∈ row.seasons)
    (hfail : gs tvId sn = Except.error e) :
    { tv_title := d.name.getD "Unknown TV Show"
      tv_title_availability := mediaAvailability ((alookup row.media "status").getD 1)
      tv_season := "S" ++ pad2 sn
      tv_season_availability := mediaAvailability ((alookup row.media "status").getD 1)
      tv_episodes := [EpisodeEntry.fetchError
        ("Could not fetch details for " ++ ("S" ++ pad2 sn))]
      request_date := row.createdAt.getD "" } ∈ processTvRequest gtv gs sd row := by
  have hreqc : ¬ (row.seasons ≠ [] ∧ some sn ∉ row.seasons) := by
    rcases hreq with h | h
    · intro hc; exact hc.1 h
    · intro hc; exact hc.2 h
  have hrow : seasonRow gs tvId (d.name.getD "Unknown TV Show")
      (mediaAvailability ((alookup row.media "status").getD 1))
      (row.createdAt.getD "") row.seasons (some sn) =
      some { tv_title := d.name.getD "Unknown TV Show"
             tv_title_availability := mediaAvailability ((alookup row.media "status").getD 1)
             tv_season := "S" ++ pad2 sn
             tv_season_availability := mediaAvailability ((alookup row.media "status").getD 1)
             tv_episodes := [EpisodeEntry.fetchError
               ("Could not fetch details for " ++ ("S" ++ pad2 sn))]
             request_date := row.createdAt.getD "" } := by
    simp [seasonRow, hsn0, hreqc, seasonEpisodes, hfail]
  have key : processTvRequest gtv gs sd row =
      d.seasons.filterMap (seasonRow gs tvId (d.name.getD "Unknown TV Show")
        (mediaAvailability ((alookup row.media "status").getD 1))
        (row.createdAt.getD "") row.seasons) := by
    simp [processTvRequest, hmedia, htvdb, hdate, htmdb, h0, hshow]
  rw [key]
  exact List.mem_filterMap.mpr ⟨some sn, hsn, hrow⟩

theorem tv_season_failure_placeholder_witness :
    ({ tv_title := "Breaking Bad"
       tv_title_availability := "PROCESSING"
       tv_season := "S" ++ pad2 2
       tv_season_availability := "PROCESSING"
       tv_episodes := [EpisodeEntry.fetchError
         ("Could not fetch details for " ++ ("S" ++ pad2 2))]
       request_date := "2024-05-05" } : TvRow) ∈
      processTvRequest (fun _ => Except.ok ⟨some "Breaking Bad", [some 1, some 2]⟩)
        (fun _ _ => Except.error "boom") none
        ⟨[("tvdbId", 81189), ("tmdbId", 1396), ("status", 3)], some "2024-05-05", []⟩ :=
  tv_season_failure_placeholder
    (fun _ => Except.ok ⟨some "Breaking Bad", [some 1, some 2]⟩)
    (fun _ _ => Except.error "boom") none
    ⟨[("tvdbId", 81189), ("tmdbId", 1396), ("status", 3)], some "2024-05-05", []⟩
    1396 ⟨some "Breaking Bad", [some 1, some 2]⟩ 2 "boom"
    (by decide) (by decide) rfl (by decide) (by decide) rfl (by decide)
    (by decide) (Or.inl rfl) rfl

/-- Claim C8: a request row whose media sub-object is present (non-empty)
but carries no truthy tvdbId is excluded from the TV listing and, when
the start-date filter passes, included in the movie listing; the split
depends only on the tvdbId of the media sub-object. -/
theorem media_split_no_tvdb
    (gm : Int → Except String MovieDetails)
    (gtv : Int → Except String TvDetails)
    (gs : Int → Int → Except String SeasonDetails)
    (sd : Option String) (row : ReqRow) (rest : List ReqRow)
    (hmedia : row.media ≠ [])
    (htvdb : truthyInt (alookup row.media "tvdbId") = false)
    (hdate : dateSkip sd (row.createdAt.getD "") = false) :
    processTvRequest gtv gs sd row = [] ∧
    processMovieRow gm sd row =
      some { title := movieTitle gm row.media
             media_availability := mediaAvailability ((alookup row.media "status").getD 1)
             request_date := row.createdAt.getD "" } ∧
    tvRows gtv gs sd (row :: rest) = tvRows gtv gs sd rest ∧
    movieRows gm sd (row :: rest) =
      { title := movieTitle gm row.media
        media_availability := mediaAvailability ((alookup row.media "status").getD 1)
        request_date := row.createdAt.getD "" } :: movieRows gm sd rest := by
  have h2 : processTvRequest gtv gs sd row = [] := by
    simp [processTvRequest, htvdb]
  have h1 : processMovieRow gm sd row =
      some { title := movieTitle gm row.media
             media_availability := mediaAvailability ((alookup row.media "status").getD 1)
             request_date := row.createdAt.getD "" } := by
    simp [processMovieRow, hmedia, htvdb, hdate]
  exact ⟨h2, h1, by simp [tvRows, h2], by simp [movieRows, List.filterMap_cons, h1]⟩

theorem media_split_no_tvdb_witness :
    processTvRequest (fun _ => Except.error "e") (fun _ _ => Except.error "e") none
        ⟨[("tmdbId", 603), ("status", 5)], some "2024-01-01", []⟩ = [] ∧
    processMovieRow (fun _ => Except.ok ⟨some "The Matrix"⟩) none
        ⟨[("tmdbId", 603), ("status", 5)], some "2024-01-01", []⟩ =
      some { title := "The Matrix", media_availability := "AVAILABLE",
             request_date := "2024-01-01" } ∧
    tvRows (fun _ => Except.error "e") (fun _ _ => Except.error "e") none
        [⟨[("tmdbId", 603), ("status", 5)], some "2024-01-01", []⟩] =
      tvRows (fun _ => Except.error "e") (fun _ _ => Except.error "e") none [] ∧
    movieRows (fun _ => Except.ok ⟨some "The Matrix"⟩) none
        [⟨[("tmdbId", 603), ("status", 5)], some "2024-01-01", []⟩] =
      { title := "The Matrix", media_availability := "AVAILABLE",
        request_date := "2024-01-01" } ::
        movieRows (fun _ => Except.ok ⟨some "The Matrix"⟩) none [] :=
  media_split_no_tvdb (fun _ => Except.ok ⟨some "The Matrix"⟩)
    (fun _ => Except.error "e") (fun _ _ => Except.error "e") none
    ⟨[("tmdbId", 603), ("status", 5)], some "2024-01-01", []⟩ []
    (by decide) (by decide) rfl

/-- Claim C9: a status-filter value outside the fixed allow-list is
silently ignored: no filter parameter is derived, both listing tools
behave exactly as if no status had been supplied, and the invocation is
never rejected. -/
theorem invalid_status_filter_ignored (s : String) (hs : s ∉ valid_statuses)
    (gr : RequestParams → Except String RequestsResponse)
    (gm : Int → Except String MovieDetails)
    (gtv : Int → Except String TvDetails)
    (gs : Int → Int → Except String SeasonDetails)
    (sd : Option String) (t k : Option Int) :
    toolStatusFilter (some s) = none ∧
    overseerr_movie_requests_tool gr gm (some s) sd t k =
      overseerr_movie_requests_tool gr gm none sd t k ∧
    overseerr_tv_requests_tool gr gtv gs (some s) sd t k =
      overseerr_tv_requests_tool gr gtv gs none sd t k := by
  have hf : toolStatusFilter (some s) = none := by
    by_cases h0 : s = ""
    · simp [toolStatusFilter, h0]
    · simp [toolStatusFilter, h0, hs]
  have hf0 : toolStatusFilter none = none := rfl
  exact ⟨hf, by simp [overseerr_movie_requests_tool, hf, hf0],
    by simp [overseerr_tv_requests_tool, hf, hf0]⟩

theorem invalid_status_filter_ignored_witness :
    toolStatusFilter (some "bogus") = none ∧
    overseerr_movie_requests_tool (fun _ => Except.ok ⟨[]⟩)
        (fun _ => Except.error "nope") (some "bogus") none none none =
      overseerr_movie_requests_tool (fun _ => Except.ok ⟨[]⟩)
        (fun _ => Except.error "nope") none none none none ∧
    overseerr_tv_requests_tool (fun _ => Except.ok ⟨[]⟩)
        (fun _ => Except.error "nope") (fun _ _ => Except.error "nope")
        (some "bogus") none none none =
      overseerr_tv_requests_tool (fun _ => Except.ok ⟨[]⟩)
        (fun _ => Except.error "nope") (fun _ _ => Except.error "nope")
        none none none none :=
  invalid_status_filter_ignored "bogus" (by decide) (fun _ => Except.ok ⟨[]⟩)
    (fun _ => Except.error "nope") (fun _ => Except.error "nope")
    (fun _ _ => Except.error "nope") none none none

/-- Claim C10: a request row whose media sub-object is missing or empty
is excluded from both the movie request listing and the TV request
listing. -/
theorem empty_media_excluded
    (gm : Int → Except String MovieDetails)
    (gtv : Int → Except String TvDetails)
    (gs : Int → Int → Except String SeasonDetails)
    (sd : Option String) (row : ReqRow) (rest : List ReqRow)
    (h : row.media = []) :
    processMovieRow gm sd row = none ∧
    processTvRequest gtv gs sd row = [] ∧
    movieRows gm sd (row :: rest) = movieRows gm sd rest ∧
    tvRows gtv gs sd (row :: rest) = tvRows gtv gs sd rest := by
  have h1 : processMovieRow gm sd row = none := by
    simp [processMovieRow, h]
  have h2 : processTvRequest gtv gs sd row = [] := by
    simp [processTvRequest, h]
  exact ⟨h1, h2, by simp [movieRows, List.filterMap_cons, h1],
    by simp [tvRows, h2]⟩

theorem empty_media_excluded_witness :
    processMovieRow (fun _ => Except.error "e") none ⟨[], none, []⟩ = none ∧
    processTvRequest (fun _ => Except.error "e") (fun _ _ => Except.error "e")
      none ⟨[], none, []⟩ = [] ∧
    movieRows (fun _ => Except.error "e") none [⟨[], none, []⟩] =
      movieRows (fun _ => Except.error "e") none [] ∧
    tvRows (fun _ => Except.error "e") (fun _ _ => Except.error "e") none
        [⟨[], none, []⟩] =
      tvRows (fun _ => Except.error "e") (fun _ _ => Except.error "e") none [] :=
  empty_media_excluded (fun _ => Except.error "e") (fun _ => Except.error "e")
    (fun _ _ => Except.error "e") none ⟨[], none, []⟩ [] rfl

/-- Claim C7 counterexample: a non-2xx response with an empty (hence
non-JSON) body does not surface the raw response text, which is the
empty string; the raised message carries the placeholder instead. -/
theorem error_text_counterexample :
    safeRequestErrorMsg 502 "GET" "/api/v1/status" (ErrBody.notJson "") =
      "Overseerr API Error 502 on GET /api/v1/status: <no error details>" ∧
    safeRequestErrorMsg 502 "GET" "/api/v1/status" (ErrBody.notJson "") ≠
      "Overseerr API Error 502 on GET /api/v1/status: " := by
  constructor
  · rfl
  · decide

/-- Claim C7 (amended): on a non-2xx response, a JSON object body with a
message field surfaces that exact message in the raised error; a
non-JSON body surfaces the raw response text when it is non-empty, and
the fallback text "<no error details>" when the response text is
empty. -/
theorem error_message_amended (status : Nat) (method endpoint : String) :
    (∀ (fields : List (String × String)) (msg : String),
      alookup fields "message" = some msg →
      safeRequestErrorMsg status method endpoint (.jsonObj fields) =
        "Overseerr API Error " ++ toString status ++ " on " ++ method ++ " "
          ++ endpoint ++ ": " ++ msg) ∧
    (∀ text : String, text ≠ "" →
      safeRequestErrorMsg status method endpoint (.notJson text) =
        "Overseerr API Error " ++ toString status ++ " on " ++ method ++ " "
          ++ endpoint ++ ": " ++ text) ∧
    safeRequestErrorMsg status method endpoint (.notJson "") =
      "Overseerr API Error " ++ toString status ++ " on " ++ method ++ " "
        ++ endpoint ++ ": " ++ "<no error details>" := by
  refine ⟨fun fields msg h => ?_, fun text ht => ?_, ?_⟩
  · simp [safeRequestErrorMsg, extractErrMessage, h]
  · simp [safeRequestErrorMsg, extractErrMessage, ht]
  · simp [safeRequestErrorMsg, extractErrMessage]

theorem error_message_amended_witness :
    safeRequestErrorMsg 404 "GET" "/api/v1/movie/1"
        (ErrBody.jsonObj [("message", "Movie not found")]) =
      "Overseerr API Error " ++ toString 404 ++ " on " ++ "GET" ++ " "
        ++ "/api/v1/movie/1" ++ ": " ++ "Movie not found" ∧
    safeRequestErrorMsg 500 "GET" "/api/v1/status" (ErrBody.notJson "oops") =
      "Overseerr API Error " ++ toString 500 ++ " on " ++ "GET" ++ " "
        ++ "/api/v1/status" ++ ": " ++ "oops" :=
  ⟨(error_message_amended 404 "GET" "/api/v1/movie/1").1
      [("message", "Movie not found")] "Movie not found" rfl,
   (error_message_amended 500 "GET" "/api/v1/status").2.1 "oops" (by decide)⟩

end OverseerrMcp
